import Mathlib

/-!
Verification development for the `subtable_bot` repository.

Shallow embedding of the dialog-control core: the dialog state machine
(`src/src/tools/state_machine.py`), the Redis-backed message store
(`src/src/redis_client.py`, `src/src/message_storage.py`), the probability
threshold command dispatcher and message orchestrator (`src/src/bot.py`),
and the command registry (`src/src/command_handler.py`).

Modelling conventions:
* Python floats (probabilities, Unix timestamps) are modelled as `Int`;
  none of the verified properties depends on fractional values.
* Redis sorted sets are modelled as association lists from member to score.
* Calls to external collaborators (the OpenAI oracle, regex text
  classification, Telegram transport) are modelled as inputs: their results
  are fields of an environment structure supplied to the orchestrator.
* Exception paths of the Redis client are outside the model: the embedded
  operations are the non-throwing paths.
-/

namespace SubtableBot

/-! ### Dialog state machine — `src/src/tools/state_machine.py` -/

/-- `Event` enum of `src/src/tools/state_machine.py`. -/
inductive Event where
  | COMMAND_EXECUTED
  | COMMAND_UNCLEAR
  | PARAMETERS_UNCLEAR
  | IGNORE_USER
  | STOP_IGNORING
deriving DecidableEq, Repr, Fintype

/-- `UserState` enum of `src/src/tools/state_machine.py`. -/
inductive UserState where
  | INIT
  | PENDING_COMMAND_CLARIFICATION
  | PENDING_PARAMETERS_CLARIFICATION
  | IGNORED
deriving DecidableEq, Repr, Fintype

open Event UserState

/-- Modelled from the spec: the file `transitions.json` read by
`StateMachine.__init__` is not present under `src/`; its rows are taken from
the spec's required transition table (which coincides with the pairs asserted
by `test_perform_transition_valid` in
`src/src/statemachine/state_machine_test.py`). Each row is
`(condition, from, to)`. -/
def transitionsTable : List (Event × UserState × UserState) :=
  [ (COMMAND_EXECUTED, INIT, INIT),
    (COMMAND_UNCLEAR, INIT, PENDING_COMMAND_CLARIFICATION),
    (PARAMETERS_UNCLEAR, INIT, PENDING_PARAMETERS_CLARIFICATION),
    (IGNORE_USER, INIT, IGNORED),
    (COMMAND_UNCLEAR, PENDING_COMMAND_CLARIFICATION, PENDING_COMMAND_CLARIFICATION),
    (PARAMETERS_UNCLEAR, PENDING_COMMAND_CLARIFICATION, PENDING_PARAMETERS_CLARIFICATION),
    (IGNORE_USER, PENDING_COMMAND_CLARIFICATION, IGNORED),
    (COMMAND_EXECUTED, PENDING_COMMAND_CLARIFICATION, INIT),
    (PARAMETERS_UNCLEAR, PENDING_PARAMETERS_CLARIFICATION, PENDING_PARAMETERS_CLARIFICATION),
    (COMMAND_EXECUTED, PENDING_PARAMETERS_CLARIFICATION, INIT),
    (STOP_IGNORING, IGNORED, INIT) ]

/-- `StateMachine.__init__`: `transition_map` groups the JSON rows by event,
keeping their order (`self.transition_map[Event(t["condition"])].append(...)`). -/
def transition_map (e : Event) : List (UserState × UserState) :=
  (transitionsTable.filter (fun t => t.1 = e)).map (fun t => t.2)

/-- `StateMachine.perform_transition` (`src/src/tools/state_machine.py`
lines 33-41): scan `transition_map[event]` and return the target of the first
pair whose source is `init_state`, else `None`. -/
def perform_transition (init_state : UserState) (event : Event) : Option UserState :=
  (transition_map event).findSome? fun state_pair =>
    if state_pair.1 = init_state then some state_pair.2 else none

/-- The spec's transition table (§4.1 of `spec.md`), written directly as a
function, for comparison with `perform_transition`. -/
def specTransition (s : UserState) (e : Event) : Option UserState :=
  match s, e with
  | INIT, COMMAND_EXECUTED => some INIT
  | INIT, COMMAND_UNCLEAR => some PENDING_COMMAND_CLARIFICATION
  | INIT, PARAMETERS_UNCLEAR => some PENDING_PARAMETERS_CLARIFICATION
  | INIT, IGNORE_USER => some IGNORED
  | PENDING_COMMAND_CLARIFICATION, COMMAND_UNCLEAR =>
      some PENDING_COMMAND_CLARIFICATION
  | PENDING_COMMAND_CLARIFICATION, PARAMETERS_UNCLEAR =>
      some PENDING_PARAMETERS_CLARIFICATION
  | PENDING_COMMAND_CLARIFICATION, IGNORE_USER => some IGNORED
  | PENDING_COMMAND_CLARIFICATION, COMMAND_EXECUTED => some INIT
  | PENDING_PARAMETERS_CLARIFICATION, PARAMETERS_UNCLEAR =>
      some PENDING_PARAMETERS_CLARIFICATION
  | PENDING_PARAMETERS_CLARIFICATION, COMMAND_EXECUTED => some INIT
  | IGNORED, STOP_IGNORING => some INIT
  | _, _ => none

/-! ### Message store — `src/src/redis_client.py` and `src/src/message_storage.py`

The per-chat Redis sorted set under key `channel:messages:{channel_id}` is
modelled as an association list from member to score.  A member is the string
`"{user_id}:{message_id}"`, modelled as the pair `(user_id, message_id)`;
a score is the message's Unix timestamp (`Int` here, `float` in the source). -/

/-- A sorted-set member `"{user_id}:{message_id}"`. -/
abbrev MessageKey := Int × Int

/-- The contents of one chat's sorted set: `(member, score)` entries. -/
abbrev ZSet := List (MessageKey × Int)

/-- Redis `ZADD key {member: score}`: if the member exists its score is
updated in place, otherwise the member is added.  The returned `Nat` is the
number of elements added (1 if new, 0 if the member already existed), as
documented in the source comment at `redis_client.py` line 105. -/
def zadd (s : ZSet) (member : MessageKey) (score : Int) : ZSet × Nat :=
  if s.any (fun p => p.1 = member) then
    (s.map (fun p => if p.1 = member then (member, score) else p), 0)
  else
    (s ++ [(member, score)], 1)

/-- Redis `ZREMRANGEBYSCORE key -inf cutoff`: removes every entry whose score
is `≤ cutoff` (both bounds inclusive). -/
def zremrangebyscoreUpTo (s : ZSet) (cutoff : Int) : ZSet :=
  s.filter (fun p => decide (cutoff < p.2))

/-- Seconds in the fixed 7-day retention horizon (`timedelta(days=7)`). -/
def sevenDaysSeconds : Int := 7 * 86400

/-- `RedisClient.append_message` (`src/src/redis_client.py` lines 82-125),
non-throwing path: `ZADD` the member `"{user_id}:{message_id}"` with the
message timestamp as score (the `ZADD` result is bound to `result` and then
ignored), prune every entry with score `≤ now - 7 days` via
`ZREMRANGEBYSCORE`, and return `True`. -/
def append_message (s : ZSet) (user_id message_id : Int) (message_timestamp : Int)
    (now : Int) : ZSet × Bool :=
  let zaddResult := zadd s (user_id, message_id) message_timestamp
  let cutoff_timestamp := now - sevenDaysSeconds
  let pruned := zremrangebyscoreUpTo zaddResult.1 cutoff_timestamp
  (pruned, true)

/-- `RedisClient.get_messages_by_time_range` (`src/src/redis_client.py`
lines 127-162): `ZRANGEBYSCORE key start end WITHSCORES`, i.e. the entries
with score in `[start_time, end_time]` in ascending score order. -/
def get_messages_by_time_range (s : ZSet) (start_time end_time : Int) :
    List (MessageKey × Int) :=
  (s.filter (fun p => decide (start_time ≤ p.2) && decide (p.2 ≤ end_time))).mergeSort
    (fun a b => decide (a.2 ≤ b.2))

/-- Score lookup for a member (Redis `ZSCORE`), used to state the overwrite
behaviour of `ZADD` on an existing member. -/
def zscore (s : ZSet) (member : MessageKey) : Option Int :=
  (s.find? (fun p => p.1 = member)).map (fun p => p.2)

/-! ### Command dispatcher — `src/src/bot.py` lines 974-1076

`handle_message` filters the oracle's candidate list by the two probability
thresholds from `src/src/config.py`, sorts each subset descending by
probability (Python's stable `list.sort` with `reverse=True`), and branches
on the size of the high set, then of the low set. -/

/-- Command parameters: a mapping from string keys to scalars (`Int` here). -/
abbrev Params := List (String × Int)

/-- One oracle candidate (`{name, probability, parameters, ...}` entries of
`analysis["commands"]`). -/
structure Candidate where
  name : String
  probability : Int
  parameters : Params
deriving DecidableEq, Repr

/-- `COMMAND_PROBABILITY_HIGH_THRESHOLD` (`src/src/config.py`, default 95). -/
def COMMAND_PROBABILITY_HIGH_THRESHOLD : Int := 95

/-- `COMMAND_PROBABILITY_LOW_THRESHOLD` (`src/src/config.py`, default 50). -/
def COMMAND_PROBABILITY_LOW_THRESHOLD : Int := 50

/-- The comparator of `sort(key=lambda x: x.get("probability", 0),
reverse=True)`: `a` may stay before `b` iff `b.probability ≤ a.probability`.
Python's sort is stable, as is `List.mergeSort`. -/
def probDesc (a b : Candidate) : Bool := decide (b.probability ≤ a.probability)

/-- `high_threshold_commands` of `handle_message` (`bot.py` lines 977-980,
sorted at line 987). -/
def high_threshold_commands (commands_with_probs : List Candidate) : List Candidate :=
  (commands_with_probs.filter
    (fun cmd => COMMAND_PROBABILITY_HIGH_THRESHOLD ≤ cmd.probability)).mergeSort probDesc

/-- `low_threshold_commands` of `handle_message` (`bot.py` lines 981-984,
sorted at line 988). -/
def low_threshold_commands (commands_with_probs : List Candidate) : List Candidate :=
  (commands_with_probs.filter
    (fun cmd => COMMAND_PROBABILITY_LOW_THRESHOLD ≤ cmd.probability)).mergeSort probDesc

/-- The four-way branch of `handle_message` on the filtered candidate lists
(`bot.py` lines 990-1076), viewed as a decision. -/
inductive DispatchDecision where
  | executeDirectly (c : Candidate)
  | chooseAmong (cs : List Candidate)
  | conversational
  | noAction
deriving DecidableEq, Repr

/-- The dispatch decision of `handle_message` (`bot.py` lines 990-1076):
* exactly one high candidate whose name is non-empty and registered
  (`if command_name and command_name in command_handler.commands`, line 995)
  → execute it directly;
* exactly one high candidate failing that name check → nothing happens
  (no reply, no fall-through to the other cases);
* more than one high candidate → ask the user to choose among them;
* no high but at least one low candidate → ask the user to choose among those;
* otherwise → the conversational/clarification fallback (lines 1062-1076). -/
def dispatch (registryNames : List String) (cands : List Candidate) : DispatchDecision :=
  match high_threshold_commands cands with
  | [cmd_data] =>
      if cmd_data.name ≠ "" ∧ cmd_data.name ∈ registryNames then
        .executeDirectly cmd_data
      else
        .noAction
  | c1 :: c2 :: rest => .chooseAmong (c1 :: c2 :: rest)
  | [] =>
      if (low_threshold_commands cands).length > 0 then
        .chooseAmong (low_threshold_commands cands)
      else
        .conversational

/-- The names registered by `CommandHandler._register_default_commands`
(`src/src/command_handler.py` lines 23-36): the `name` fields of the eight
command classes under `src/src/commands/`. -/
def defaultCommandNames : List String :=
  ["get_time", "random_number", "echo", "most_active_user", "silence",
    "silence_me", "summarize", "breakdown_topic"]

/-! ### Command registry — `src/src/command_handler.py` -/

/-- A command object as registered in `CommandHandler.commands`: its
`validate_parameters` contract (`(is_valid, error_message)`) and its
`execute` body.  A body that raises is modelled as `Except.error` carrying
the exception text `str(e)`; a normal return carries the resulting `Event`.
The replies a command body sends itself are command business logic, outside
this model's scope. -/
structure Command where
  validate_parameters : Params → Bool × Option String
  execute : Params → Except String Event

/-- The replies sent by `CommandHandler.execute_command` itself
(`command_handler.py` lines 91-113). -/
inductive HandlerReply where
  | commandNotFound (command_name : String)
  | validationError (error_message : Option String)
  | executionError (exception_text : String)
deriving DecidableEq, Repr

/-- `CommandHandler.validate_command` (`command_handler.py` lines 46-63):
unknown name → `(False, "Команда '...' не найдена.")`, otherwise delegate to
the command's `validate_parameters`. -/
def validate_command (commands : List (String × Command)) (command_name : String)
    (parameters : Params) : Bool × Option String :=
  match commands.find? (fun p => p.1 = command_name) with
  | none => (false, some ("Команда '" ++ command_name ++ "' не найдена."))
  | some p => p.2.validate_parameters parameters

/-- `CommandHandler.execute_command` (`command_handler.py` lines 65-113):
* unknown command name → reply "command not found" (when the update carries a
  message object) and return `Event.COMMAND_UNCLEAR`;
* parameters failing `validate_command` → error reply and
  `Event.PARAMETERS_UNCLEAR`;
* the command body raising → the exception is caught, an error reply is sent,
  and `Event.COMMAND_EXECUTED` is returned;
* otherwise the event returned by the command body. -/
def execute_command (commands : List (String × Command)) (command_name : String)
    (parameters : Params) (has_message_obj : Bool) : List HandlerReply × Event :=
  match commands.find? (fun p => p.1 = command_name) with
  | none =>
      ((if has_message_obj then [HandlerReply.commandNotFound command_name] else []),
        Event.COMMAND_UNCLEAR)
  | some p =>
      match validate_command commands command_name parameters with
      | (false, error_message) =>
          ((if has_message_obj then [HandlerReply.validationError error_message] else []),
            Event.PARAMETERS_UNCLEAR)
      | (true, _) =>
          match p.2.execute parameters with
          | .ok ev => ([], ev)
          | .error e =>
              ((if has_message_obj then [HandlerReply.executionError e] else []),
                Event.COMMAND_EXECUTED)

/-- A minimal command whose body always raises, for the C9 witness. -/
def boomCommand : Command :=
  { validate_parameters := fun _ => (true, none)
    execute := fun _ => Except.error "boom" }

/-! ### Parameter-clarification loops — `src/src/bot.py` lines 624-733 -/

/-- Python truthiness of an optional integer (`None` and `0` are falsy),
used for `dict.get(...)` tests such as
`time_window_result.get("time_window_hours")`. -/
def truthyInt (o : Option Int) : Option Int :=
  match o with
  | some v => if v = 0 then none else some v
  | none => none

/-- `context.user_data["pending_time_window"]` (`bot.py` lines 333-336,
1009-1012): the command awaiting a time window and the attempt counter,
created with `attempt = 1`. -/
structure PendingTimeWindow where
  command : String
  attempt : Nat
deriving DecidableEq, Repr

/-- Result of the oracle call `chatgpt.extract_time_window(...)`. -/
structure TimeWindowResult where
  success : Bool
  time_window_hours : Option Int
deriving DecidableEq, Repr

/-- The test `time_window_result.get("success") and
time_window_result.get("time_window_hours")` (`bot.py` line 636). -/
def tw_extracted_hours (r : TimeWindowResult) : Option Int :=
  match r.success with
  | true => truthyInt r.time_window_hours
  | false => none

/-- Outcome of one round of the `pending_time_window` branch. -/
inductive TimeWindowStep where
  | confirmed (command : String) (time_window_hours : Int)
  | retry
  | giveUp
deriving DecidableEq, Repr

/-- One round of the `pending_time_window` branch (`bot.py` lines 631-671),
for a message replying to the bot: successful extraction stores the hours and
clears the marker (lines 636-652); a failure with `attempt >= 2` gives up and
clears the marker (lines 655-662); a first failure re-asks with the stored
`attempt` set to 2 (lines 663-671). -/
def handle_pending_time_window (p : PendingTimeWindow) (r : TimeWindowResult) :
    TimeWindowStep × Option PendingTimeWindow :=
  match tw_extracted_hours r with
  | some h => (.confirmed p.command h, none)
  | none =>
      if p.attempt ≥ 2 then (.giveUp, none)
      else (.retry, some { command := p.command, attempt := 2 })

/-- `context.user_data["pending_summarize_parameters"]` (`bot.py` lines
231-234 etc.): the stored command name and chat id. -/
structure PendingSummarize where
  command : String
  chat_id : Int
deriving DecidableEq, Repr

/-- Result of the oracle call `chatgpt.extract_summarize_parameters(...)`. -/
structure SummarizeExtraction where
  success : Bool
  message_count : Option Int
  time_window_hours : Option Int
deriving DecidableEq, Repr

/-- Outcome of one round of the `pending_summarize_parameters` branch.
`validated` means extraction and validation both succeeded, so the source
reaches the `execute_command` call at `bot.py` line 701 — which raises
`TypeError` (see the orchestrator section comment below). -/
inductive SummarizeStep where
  | validated (parameters : Params)
  | askAgainValidation (error_message : Option String)
  | askAgainExtraction
deriving DecidableEq, Repr

/-- The parameter dict built at `bot.py` lines 688-692: `message_count` if
truthy, else `time_window_hours` if truthy, else empty. -/
def summ_build_parameters (r : SummarizeExtraction) : Params :=
  match truthyInt r.message_count with
  | some c => [("message_count", c)]
  | none =>
      match truthyInt r.time_window_hours with
      | some h => [("time_window_hours", h)]
      | none => []

/-- One round of the `pending_summarize_parameters` branch (`bot.py` lines
680-733), for a message replying to the bot: extraction success followed by
successful validation reaches the `execute_command` call at line 701, which
raises before the marker deletion at line 718, so the marker survives;
a validation failure re-asks and keeps the marker (lines 721-724); an
extraction failure re-asks and keeps the marker (lines 725-733).  No attempt
counter exists in this branch. -/
def handle_pending_summarize (commands : List (String × Command))
    (p : PendingSummarize) (r : SummarizeExtraction) :
    SummarizeStep × Option PendingSummarize :=
  if r.success then
    match validate_command commands p.command (summ_build_parameters r) with
    | (true, _) => (.validated (summ_build_parameters r), some p)
    | (false, error_message) => (.askAgainValidation error_message, some p)
  else
    (.askAgainExtraction, some p)

/-! ### Orchestrator — `handle_message` in `src/src/bot.py` (lines 551-1076)

The orchestrator's calls to external collaborators are supplied as inputs:
the `Env` structure carries the results of the regex text classification
(`should_process_message`, `is_reply_to_bot`, the keyword scans) and of the
oracle calls for this invocation.  The bodies of `handle_confirmation`
(`bot.py` lines 293-548) and of the topic-selection block (`bot.py` lines
742-884) are passed as handler functions: the claims settled here only
concern invocations in which those branches are not entered (their theorems
assume the pending flags that guard them are unset), and the theorems hold
for every such handler.  The raising call sites at lines 418 and 505 lie
inside `handle_confirmation` and are therefore behind that same guard.

A load-bearing defect of the source: `CommandHandler.execute_command` is
declared as `(self, command_name, parameters=None, update=None,
context=None, chatgpt_client=None)` with no `**kwargs`, yet every call to it
inside `handle_message`'s flow passes `bot=`, `chat_id=`, `user_id=` (and
sometimes `user_message=`) keywords — `bot.py` lines 256, 418, 505, 604,
701 and 944.  Each such call raises `TypeError` synchronously, before the
command body runs and before any subsequent reply or user-data mutation;
no try/except in `handle_message` covers these calls, so the exception
propagates out of the handler.  The model records this as `raised = true` on
the result, with the effect list cut at the raise point. -/

/-- `context.user_data["pending_command"]`: stored command name and
parameters. -/
structure PendingCommand where
  command : String
  parameters : Params
deriving DecidableEq, Repr

/-- The `context.user_data` flags driving `handle_message`'s branches.
`pending_choice` matters to the orchestrator only through its presence;
`pending_topic` through its presence and stored `chat_id` (`bot.py`
line 739). -/
structure UserData where
  pending_command : Option PendingCommand
  pending_choice : Bool
  pending_time_window : Option PendingTimeWindow
  pending_summarize_parameters : Option PendingSummarize
  pending_topic : Option Int
deriving DecidableEq, Repr

/-- The module-level stores read by `handle_message`:
`user_ignore_list.ignored_users`, `silence_state.silenced_chats`, and the
per-chat message sorted sets behind `message_storage`. -/
structure BotState where
  ignored_users : List Int
  silenced_chats : List Int
  chats : List (Int × ZSet)
deriving DecidableEq, Repr

/-- The chat's sorted set (empty when the key is absent). -/
def getChat (chats : List (Int × ZSet)) (chat_id : Int) : ZSet :=
  ((chats.find? (fun p => p.1 = chat_id)).map (fun p => p.2)).getD []

/-- Write back one chat's sorted set. -/
def setChat (chats : List (Int × ZSet)) (chat_id : Int) (z : ZSet) :
    List (Int × ZSet) :=
  if chats.any (fun p => p.1 = chat_id) then
    chats.map (fun p => if p.1 = chat_id then (chat_id, z) else p)
  else
    chats ++ [(chat_id, z)]

/-- `MessageStorage.add_message` (`src/src/message_storage.py` lines 23-43):
forwards to `RedisClient.append_message` on the chat's sorted set; the
returned success flag is only logged, never propagated. -/
def add_message (chats : List (Int × ZSet)) (chat_id user_id message_id ts now : Int) :
    List (Int × ZSet) :=
  setChat chats chat_id
    (append_message (getChat chats chat_id) user_id message_id ts now).1

/-- The fields of the incoming Telegram update that `handle_message` reads.
`is_message` distinguishes `update.message` from `update.channel_post`. -/
structure Msg where
  chat_id : Int
  from_user : Option Int
  message_id : Int
  date : Option Int
  is_message : Bool
deriving DecidableEq, Repr

/-- Result of the oracle call `chatgpt.analyze_message_intent(...)`. -/
structure IntentResult where
  is_command_request : Bool
  should_respond : Bool
deriving DecidableEq, Repr

/-- The results of the external calls one `handle_message` invocation makes,
supplied as inputs:
* `should_process` / `user_message`: the pair returned by
  `should_process_message` (regex mention/reply/name-call analysis);
* `is_reply_to_bot`: `is_reply_to_bot(update, context)`;
* `analysis_commands`: `chatgpt.analyze_message(...)["commands"]`;
* `analysis_command_field` / `analysis_parameters_field`: the optional
  top-level `"command"` / `"parameters"` entries of the same oracle JSON,
  read only by the silenced branch (`bot.py` lines 918, 924);
* `ignored_unsilence_keyword` / `silenced_unsilence_keyword`: the keyword
  scans at `bot.py` lines 577-582 and 911-913;
* `tw_extraction_pending` / `tw_extraction_dispatch`: the two
  `chatgpt.extract_time_window` call sites (lines 634 and 999);
* `summ_extraction`: `chatgpt.extract_summarize_parameters` (line 684);
* `intent`: `chatgpt.analyze_message_intent` (line 1064);
* `now`: `datetime.now()`.
The substring classifications of a command response text (lines 263, 271,
280) have no field: they sit after the `TypeError`-raising
`execute_command` call and are unreachable. -/
structure Env where
  should_process : Bool
  user_message : String
  is_reply_to_bot : Bool
  analysis_commands : List Candidate
  analysis_command_field : Option String
  analysis_parameters_field : Params
  ignored_unsilence_keyword : Bool
  silenced_unsilence_keyword : Bool
  tw_extraction_pending : TimeWindowResult
  tw_extraction_dispatch : TimeWindowResult
  summ_extraction : SummarizeExtraction
  intent : IntentResult
  now : Int
deriving DecidableEq, Repr

/-- Tags for the replies `handle_message` sends (identifying the source
line's message text rather than embedding the Russian strings).  Replies
that would only be sent after one of the `TypeError`-raising
`execute_command` calls have no tag: they are never sent. -/
inductive ReplyTag where
  | silenceConfirmPrompt
  | twConfirmPrompt
  | twRetryPrompt
  | twGiveUpMessage
  | askTimeWindow
  | summValidationError (error_message : Option String)
  | summExtractionRetry
  | validationClarification (error_message : Option String)
  | chooseHigh (cs : List Candidate)
  | chooseLow (cs : List Candidate)
  | conversationalResponse
  | clarificationResponse
deriving DecidableEq, Repr

/-- The observable actions of one `handle_message` invocation, in order.
No command-execution effect exists: every `execute_command` call reachable
from `handle_message` raises `TypeError` before the command body runs. -/
inductive Effect where
  | storedMessage (chat_id user_id message_id ts : Int)
  | replied (tag : ReplyTag)
deriving DecidableEq, Repr

/-- What one `handle_message` invocation produces: its ordered effects, the
updated chat store and user data, and whether the invocation raised an
unhandled exception (the `TypeError` from a mismatched `execute_command`
call).  When `raised` is true, `effects`, `chats` and `user_data` describe
what had already happened before the raise. -/
structure HandleResult where
  effects : List Effect
  chats : List (Int × ZSet)
  user_data : UserData
  raised : Bool
deriving DecidableEq, Repr

/-- The guard `if user_id and user_ignore_list.is_ignored(user_id)`
(`bot.py` line 562): a missing `from_user` and the id `0` are falsy. -/
def userIsIgnoredCheck (st : BotState) (from_user : Option Int) : Bool :=
  match from_user with
  | some uid => !(uid == 0) && st.ignored_users.contains uid
  | none => false

/-- The ignored-user branch (`bot.py` lines 562-612): a pending `silence_me`
confirmation is forwarded to `handle_confirmation`; otherwise, a processed
message whose un-silence keyword scan hits — or whose oracle analysis scores
`silence_me` at or above the high threshold — reaches the `execute_command`
call at lines 604-606, whose `bot=`/`chat_id=`/`user_id=` keywords raise
`TypeError`: no command runs and no reply is sent.  Everything else is
dropped. -/
def ignored_branch
    (confirmHandler : BotState → UserData → Msg → Env → Bool × UserData × List Effect)
    (st : BotState) (ud : UserData) (msg : Msg) (env : Env) : HandleResult :=
  let tryConfirm :=
    match ud.pending_command with
    | some pc => pc.command == "silence_me"
    | none => false
  let c := if tryConfirm then confirmHandler st ud msg env else (false, ud, [])
  if c.1 then
    ⟨c.2.2, st.chats, c.2.1, false⟩
  else
    let ud1 := c.2.1
    let eff1 := c.2.2
    if env.should_process ∧ env.user_message ≠ "" then
      let silence_me_prob :=
        ((env.analysis_commands.find? (fun cmd => cmd.name = "silence_me")).map
          (fun cmd => cmd.probability)).getD 0
      if env.ignored_unsilence_keyword ∨
          COMMAND_PROBABILITY_HIGH_THRESHOLD ≤ silence_me_prob then
        ⟨eff1, st.chats, ud1, true⟩
      else
        ⟨eff1, st.chats, ud1, false⟩
    else
      ⟨eff1, st.chats, ud1, false⟩

/-- `execute_command_directly` (`bot.py` lines 197-290): validate first — a
failure replies a clarification and, for `summarize` with neither parameter
supplied, or for `breakdown_topic`, sets the corresponding pending flag
(lines 222-246); the third component is `some false`, the source's return
value.  On validation success the source reaches the `execute_command` call
at line 256, whose `bot=`/`chat_id=`/`user_id=`/`user_message=` keywords
raise `TypeError`: no command runs, no reply is sent, the response-text
classification at lines 260-287 is never reached, and the function does not
return — modelled as `none` in the third component. -/
def execute_command_directly (commands : List (String × Command))
    (command_name : String) (parameters : Params) (chat_id : Int) (ud : UserData) :
    UserData × List Effect × Option Bool :=
  let v := validate_command commands command_name parameters
  if v.1 = false then
    let ud' :=
      if command_name = "summarize" then
        if truthyInt ((parameters.find? (fun p => p.1 = "message_count")).map
              (fun p => p.2)) = none ∧
            truthyInt ((parameters.find? (fun p => p.1 = "time_window_hours")).map
              (fun p => p.2)) = none then
          { ud with pending_summarize_parameters := some ⟨command_name, chat_id⟩ }
        else ud
      else if command_name = "breakdown_topic" then
        { ud with pending_topic := some chat_id }
      else ud
    (ud', [Effect.replied (ReplyTag.validationClarification v.2)], some false)
  else
    (ud, [], none)

/-- What the main dispatch produces: updated user data, its ordered
effects, and whether it raised (via `execute_command_directly` reaching the
broken `execute_command` call). -/
structure DispatchOutcome where
  user_data : UserData
  effects : List Effect
  raised : Bool
deriving DecidableEq, Repr

/-- The main dispatch (`bot.py` lines 952-1076): re-check
`should_process_message`, then branch on the threshold-filtered candidate
lists; the single-high case special-cases `most_active_user` (time-window
extraction, lines 997-1017) and is guarded by the registry membership test
(line 995).  The direct-execution paths raise unless validation fails first
(see `execute_command_directly`). -/
def main_dispatch (commands : List (String × Command)) (env : Env)
    (chat_id : Int) (ud : UserData) : DispatchOutcome :=
  if env.should_process ∧ env.user_message ≠ "" then
    match high_threshold_commands env.analysis_commands with
    | [cmd_data] =>
        if cmd_data.name ≠ "" ∧ cmd_data.name ∈ commands.map Prod.fst then
          if cmd_data.name = "most_active_user" then
            match tw_extracted_hours env.tw_extraction_dispatch with
            | some h =>
                let r := execute_command_directly commands "most_active_user"
                  [("time_window_hours", h)] chat_id ud
                ⟨r.1, r.2.1, r.2.2.isNone⟩
            | none =>
                ⟨{ ud with pending_time_window := some ⟨cmd_data.name, 1⟩ },
                  [Effect.replied ReplyTag.askTimeWindow], false⟩
          else
            let r := execute_command_directly commands cmd_data.name
              cmd_data.parameters chat_id ud
            ⟨r.1, r.2.1, r.2.2.isNone⟩
        else
          ⟨ud, [], false⟩
    | c1 :: c2 :: rest =>
        ⟨{ ud with pending_choice := true },
          [Effect.replied (ReplyTag.chooseHigh (c1 :: c2 :: rest))], false⟩
    | [] =>
        if (low_threshold_commands env.analysis_commands).length > 0 then
          ⟨{ ud with pending_choice := true },
            [Effect.replied (ReplyTag.chooseLow
              (low_threshold_commands env.analysis_commands))], false⟩
        else
          if ¬env.intent.is_command_request ∧ env.intent.should_respond then
            ⟨ud, [Effect.replied ReplyTag.conversationalResponse], false⟩
          else
            ⟨ud, [Effect.replied ReplyTag.clarificationResponse], false⟩
  else
    ⟨ud, [], false⟩

/-- `bot.py` lines 886-1076: record the message (only when the chat is not
silenced and the sender is present and not on the ignore list; the
`add_message` result is discarded), then either run the silenced-chat gate
(lines 904-950) or fall through to the main dispatch.  In the silenced gate,
the oracle-classified `silence` path stores a pending command and replies a
confirmation prompt (lines 923-939); the un-silence keyword path reaches the
`execute_command` call at line 944, whose `bot=`/`chat_id=`/`user_id=`
keywords raise `TypeError` — no command runs, no reply is sent, and the
silence state is untouched. -/
def store_and_dispatch (commands : List (String × Command)) (st : BotState)
    (is_silenced : Bool) (chat_id : Int) (ud : UserData) (msg : Msg) (env : Env) :
    HandleResult :=
  let stored :=
    match msg.from_user with
    | some uid =>
        if !is_silenced && !(st.ignored_users.contains uid) then
          some (uid, msg.date.getD env.now)
        else none
    | none => none
  let chats' :=
    match stored with
    | some (uid, ts) => add_message st.chats chat_id uid msg.message_id ts env.now
    | none => st.chats
  let storeEff :=
    match stored with
    | some (uid, ts) => [Effect.storedMessage chat_id uid msg.message_id ts]
    | none => ([] : List Effect)
  if is_silenced then
    if env.should_process ∧ env.user_message ≠ "" then
      if env.analysis_command_field = some "silence" then
        ⟨storeEff ++ [Effect.replied ReplyTag.silenceConfirmPrompt], chats',
          { ud with pending_command := some ⟨"silence", env.analysis_parameters_field⟩ },
          false⟩
      else if env.silenced_unsilence_keyword then
        ⟨storeEff, chats', ud, true⟩
      else
        ⟨storeEff, chats', ud, false⟩
    else
      ⟨storeEff, chats', ud, false⟩
  else
    let d := main_dispatch commands env chat_id ud
    ⟨storeEff ++ d.effects, chats', d.user_data, d.raised⟩

/-- The `pending_topic` branch (`bot.py` lines 736-884): the stored chat id
replaces the current one (line 739); a reply to the bot enters the
topic-selection block (modelled by `topicHandler`); otherwise processing
falls through with the marker kept. -/
def pending_topic_block (commands : List (String × Command))
    (topicHandler : BotState → UserData → Msg → Env → UserData × List Effect)
    (st : BotState) (is_silenced : Bool) (chat_id : Int) (ud : UserData)
    (msg : Msg) (env : Env) : HandleResult :=
  match ud.pending_topic with
  | some tchat =>
      if env.is_reply_to_bot ∧ msg.is_message then
        let r := topicHandler st ud msg env
        ⟨r.2, st.chats, r.1, false⟩
      else
        store_and_dispatch commands st is_silenced tchat ud msg env
  | none => store_and_dispatch commands st is_silenced chat_id ud msg env

/-- The `pending_summarize_parameters` branch (`bot.py` lines 674-733): the
stored chat id replaces the current one (line 677); a reply to the bot runs
one extraction round (`handle_pending_summarize`); otherwise processing
falls through with the marker kept.  The extraction-success-and-valid
round reaches the `execute_command` call at line 701, whose `bot=`/
`chat_id=`/`user_id=`/`user_message=` keywords raise `TypeError` before the
reply at line 719 and before the marker deletion at line 718, so nothing is
replied and the marker survives. -/
def pending_summarize_block (commands : List (String × Command))
    (topicHandler : BotState → UserData → Msg → Env → UserData × List Effect)
    (st : BotState) (is_silenced : Bool) (chat_id : Int) (ud : UserData)
    (msg : Msg) (env : Env) : HandleResult :=
  match ud.pending_summarize_parameters with
  | some p =>
      if env.is_reply_to_bot ∧ msg.is_message then
        match (handle_pending_summarize commands p env.summ_extraction).1 with
        | .validated _ =>
            ⟨[], st.chats, ud, true⟩
        | .askAgainValidation error_message =>
            ⟨[Effect.replied (ReplyTag.summValidationError error_message)],
              st.chats, ud, false⟩
        | .askAgainExtraction =>
            ⟨[Effect.replied ReplyTag.summExtractionRetry], st.chats, ud, false⟩
      else
        pending_topic_block commands topicHandler st is_silenced p.chat_id ud msg env
  | none => pending_topic_block commands topicHandler st is_silenced chat_id ud msg env

/-- The `pending_time_window` branch (`bot.py` lines 624-671): a reply to
the bot runs one extraction round (`handle_pending_time_window`); otherwise
processing falls through with the marker kept. -/
def pending_time_window_block (commands : List (String × Command))
    (topicHandler : BotState → UserData → Msg → Env → UserData × List Effect)
    (st : BotState) (is_silenced : Bool) (ud : UserData) (msg : Msg) (env : Env) :
    HandleResult :=
  match ud.pending_time_window with
  | some p =>
      if env.is_reply_to_bot ∧ msg.is_message then
        match handle_pending_time_window p env.tw_extraction_pending with
        | (.confirmed command hours, _) =>
            ⟨[Effect.replied ReplyTag.twConfirmPrompt], st.chats,
              { ud with
                  pending_time_window := none
                  pending_command := some ⟨command, [("time_window_hours", hours)]⟩ },
              false⟩
        | (.retry, p') =>
            ⟨[Effect.replied ReplyTag.twRetryPrompt], st.chats,
              { ud with pending_time_window := p' }, false⟩
        | (.giveUp, _) =>
            ⟨[Effect.replied ReplyTag.twGiveUpMessage], st.chats,
              { ud with pending_time_window := none }, false⟩
      else
        pending_summarize_block commands topicHandler st is_silenced msg.chat_id ud
          msg env
  | none =>
      pending_summarize_block commands topicHandler st is_silenced msg.chat_id ud
        msg env

/-- `handle_message` (`bot.py` lines 551-1076): ignore-list gate first
(lines 562-612), then the silence-state read (line 615), the
confirmation/choice forwarding (lines 617-621), the three pending branches,
the message recording, the silenced-chat gate, and the main dispatch. -/
def handle_message (commands : List (String × Command))
    (confirmHandler : BotState → UserData → Msg → Env → Bool × UserData × List Effect)
    (topicHandler : BotState → UserData → Msg → Env → UserData × List Effect)
    (st : BotState) (ud : UserData) (msg : Msg) (env : Env) : HandleResult :=
  if userIsIgnoredCheck st msg.from_user then
    ignored_branch confirmHandler st ud msg env
  else
    let is_silenced := st.silenced_chats.contains msg.chat_id
    if ud.pending_command.isSome || ud.pending_choice then
      let c := confirmHandler st ud msg env
      if c.1 then
        ⟨c.2.2, st.chats, c.2.1, false⟩
      else
        let r := pending_time_window_block commands topicHandler st is_silenced
          c.2.1 msg env
        ⟨c.2.2 ++ r.effects, r.chats, r.user_data, r.raised⟩
    else
      pending_time_window_block commands topicHandler st is_silenced ud msg env

/-- A confirmation handler that reports "not handled" and changes nothing,
used to instantiate the opaque `handle_confirmation` parameter at concrete
inputs whose control flow never enters that branch. -/
def dummyConfirmHandler : BotState → UserData → Msg → Env → Bool × UserData × List Effect :=
  fun _ ud _ _ => (false, ud, [])

/-- A topic-selection handler that changes nothing, used to instantiate the
opaque topic-block parameter at concrete inputs whose control flow never
enters that branch. -/
def dummyTopicHandler : BotState → UserData → Msg → Env → UserData × List Effect :=
  fun _ ud _ _ => (ud, [])

/-- A baseline environment: nothing processed, every oracle call failing or
empty; concrete scenarios override individual fields. -/
def quietEnv : Env :=
  { should_process := false
    user_message := ""
    is_reply_to_bot := false
    analysis_commands := []
    analysis_command_field := none
    analysis_parameters_field := []
    ignored_unsilence_keyword := false
    silenced_unsilence_keyword := false
    tw_extraction_pending := ⟨false, none⟩
    tw_extraction_dispatch := ⟨false, none⟩
    summ_extraction := ⟨false, none, none⟩
    intent := ⟨true, false⟩
    now := 100 }

/-- User data with no pending flag set (the `INIT` dialog state). -/
def udInit : UserData := ⟨none, false, none, none, none⟩

/-- A concrete incoming message: chat 7, sender 42, message id 5, sent at
time 100, delivered as `update.message`. -/
def msgW : Msg := ⟨7, some 42, 5, some 100, true⟩

/-- `quietEnv` with the message classified as addressed to the bot and
replying to one of its messages. -/
def replyEnvW : Env :=
  { quietEnv with
      should_process := true
      user_message := "x"
      is_reply_to_bot := true }

/-- `quietEnv` with the message addressed to the bot (mention), not a reply,
carrying an oracle analysis with no plausible command. -/
def mentionEnvW : Env :=
  { quietEnv with
      should_process := true
      user_message := "hi" }

/-- `quietEnv` with the message addressed to the bot and hitting the
silenced-branch un-silence keyword scan (`bot.py` line 911). -/
def unsilenceEnvW : Env :=
  { quietEnv with
      should_process := true
      user_message := "проснись"
      silenced_unsilence_keyword := true }

/-- `quietEnv` with the message addressed to the bot and the oracle JSON
carrying a top-level `"command": "silence"` entry (read at `bot.py`
line 918). -/
def silenceFieldEnvW : Env :=
  { quietEnv with
      should_process := true
      user_message := "x"
      analysis_command_field := some "silence" }

/-! ### Theorems -/

/-- C1: for every (state, event) pair in the spec's transition table,
`StateMachine.perform_transition` returns exactly the table's target state,
and for every pair not in the table it returns `None` (no transition). -/
theorem C1_perform_transition_matches_spec_table :
    ∀ (s : UserState) (e : Event), perform_transition s e = specTransition s e := by
  decide

/-! Helper lemmas about `zadd` and pruning. -/

theorem zadd_length_le (s : ZSet) (member : MessageKey) (score : Int) :
    (zadd s member score).1.length ≤ s.length + 1 := by
  unfold zadd
  split
  · simp
  · simp

theorem zadd_mem_self (s : ZSet) (member : MessageKey) (score : Int) :
    ∃ sc, (member, sc) ∈ (zadd s member score).1 := by
  unfold zadd
  split
  · rename_i h
    rw [List.any_eq_true] at h
    obtain ⟨p, hp, hpm⟩ := h
    refine ⟨score, ?_⟩
    rw [List.mem_map]
    exact ⟨p, hp, by simp [of_decide_eq_true hpm]⟩
  · exact ⟨score, by simp⟩

theorem zadd_length_of_mem (s : ZSet) (member : MessageKey) (score : Int)
    (h : ∃ sc, (member, sc) ∈ s) :
    (zadd s member score).1.length = s.length := by
  unfold zadd
  have : s.any (fun p => p.1 = member) = true := by
    obtain ⟨sc, hsc⟩ := h
    rw [List.any_eq_true]
    exact ⟨(member, sc), hsc, by simp⟩
  rw [if_pos this]
  simp

theorem zadd_score_eq (s : ZSet) (member : MessageKey) (score : Int) :
    ∀ sc, (member, sc) ∈ (zadd s member score).1 → sc = score := by
  intro sc hmem
  unfold zadd at hmem
  split at hmem
  · rw [List.mem_map] at hmem
    obtain ⟨p, _, hp⟩ := hmem
    by_cases hpm : p.1 = member
    · rw [if_pos hpm] at hp
      exact (((Prod.mk.injEq _ _ _ _).mp hp).2).symm
    · rw [if_neg hpm] at hp
      have : p.1 = member := by rw [hp]
      exact absurd this hpm
  · rename_i hany
    rw [List.mem_append] at hmem
    rcases hmem with h | h
    · exact absurd (List.any_eq_true.mpr ⟨(member, sc), h, by simp⟩) hany
    · simpa using h

theorem filter_length_lt_of_removed {p : MessageKey × Int → Bool} {s : ZSet}
    (x : MessageKey × Int) (hx : x ∈ s) (hpx : p x = false) :
    (s.filter p).length < s.length := by
  induction s with
  | nil => cases hx
  | cons a t ih =>
    rcases List.mem_cons.mp hx with rfl | hxt
    · rw [List.filter_cons, hpx]
      exact Nat.lt_succ_of_le (List.length_filter_le _ _)
    · rw [List.filter_cons]
      split
      · simpa using Nat.succ_lt_succ (ih hxt)
      · exact Nat.lt_succ_of_lt (ih hxt)

/-- The claim of C3 as the spec states it: the second identical `append` call
"reports not newly added", i.e. returns `False`, is refuted.
`append_message` returns `True` on both calls: the source binds the `ZADD`
result and returns the constant `True` (`redis_client.py` line 121), and
`MessageStorage.add_message` only logs.  Concrete input: chat store starts
empty, `(user_id, message_id) = (1, 2)`, timestamp 100, now 100. -/
theorem C3_second_append_reports_true_counterexample :
    (append_message (append_message [] 1 2 100 100).1 1 2 100 100).2 = true ∧
      ¬ (append_message (append_message [] 1 2 100 100).1 1 2 100 100).2 = false := by
  constructor
  · rfl
  · decide

/-- Unfolding equation for the state component of `append_message`. -/
theorem append_message_fst (s : ZSet) (uid mid ts now : Int) :
    (append_message s uid mid ts now).1
      = zremrangebyscoreUpTo (zadd s (uid, mid) ts).1 (now - sevenDaysSeconds) := rfl

/-- C3 amended: calling `append_message` twice with the same
`(user_id, message_id)` increases the number of stored records by at most 1
(the duplicate `ZADD` only overwrites the score), but the second call returns
`True` exactly like the first — the duplicate is not reported, so consumers
cannot short-circuit redelivered updates. -/
theorem C3_append_twice_count_at_most_one (s : ZSet) (uid mid t1 t2 n1 n2 : Int) :
    ((append_message (append_message s uid mid t1 n1).1 uid mid t2 n2).1.length ≤
        s.length + 1) ∧
      (append_message (append_message s uid mid t1 n1).1 uid mid t2 n2).2 = true := by
  refine ⟨?_, rfl⟩
  set s1 := (append_message s uid mid t1 n1).1 with hs1
  rw [append_message_fst]
  unfold zremrangebyscoreUpTo
  have h1 := List.length_filter_le
    (fun p => decide (n2 - sevenDaysSeconds < p.2)) (zadd s1 (uid, mid) t2).1
  by_cases hmem : ∃ sc, ((uid, mid), sc) ∈ s1
  · -- the member survived the first call's pruning: the second ZADD only
    -- updates its score, and pruning can only shrink the list further
    have h2 := zadd_length_of_mem s1 (uid, mid) t2 hmem
    have h3 : s1.length ≤ s.length + 1 := by
      rw [hs1, append_message_fst]
      unfold zremrangebyscoreUpTo
      exact le_trans (List.length_filter_le _ _) (zadd_length_le _ _ _)
    omega
  · -- the member was pruned by the first call: that pruning removed at least
    -- the entry the first ZADD produced, so the second ZADD's growth by one
    -- entry stays within the bound
    have h2 := zadd_length_le s1 (uid, mid) t2
    have h3 : s1.length ≤ s.length := by
      obtain ⟨sc, hsc⟩ := zadd_mem_self s (uid, mid) t1
      by_cases hkeep : decide (n1 - sevenDaysSeconds < sc) = true
      · exact absurd
          ⟨sc, by
            rw [hs1, append_message_fst]
            exact List.mem_filter.mpr ⟨hsc, hkeep⟩⟩
          hmem
      · have hfalse : decide (n1 - sevenDaysSeconds < sc) = false := by
          simp only [Bool.not_eq_true] at hkeep
          exact hkeep
        have hlt := filter_length_lt_of_removed
          (p := fun p => decide (n1 - sevenDaysSeconds < p.2))
          ((uid, mid), sc) hsc hfalse
        have hzl := zadd_length_le s (uid, mid) t1
        rw [hs1, append_message_fst]
        unfold zremrangebyscoreUpTo
        omega
    omega

/-- C4: after every append, no record whose timestamp is more than 7 days
before `now` is retrievable from the chat via `get_messages_by_time_range`
with a cutoff at `now`: the pruning happens inside `append_message` itself
(`redis_client.py` lines 109-121), not in a separate sweep. -/
theorem C4_append_leaves_no_stale_records (s : ZSet) (uid mid ts now start : Int) :
    ∀ x, x ∈ get_messages_by_time_range (append_message s uid mid ts now).1 start now →
      now - sevenDaysSeconds < x.2 := by
  intro x hx
  unfold get_messages_by_time_range at hx
  rw [List.mem_mergeSort, List.mem_filter] at hx
  have hx1 := hx.1
  rw [append_message_fst] at hx1
  unfold zremrangebyscoreUpTo at hx1
  exact of_decide_eq_true (List.mem_filter.mp hx1).2

/-- Witness for C4 at a concrete input: appending member `(1, 2)` with
timestamp 100 at time 100 into an empty chat leaves it retrievable, and
`C4_append_leaves_no_stale_records` applies to it. -/
theorem C4_append_leaves_no_stale_records_witness :
    (((1, 2), (100 : Int)) ∈
        get_messages_by_time_range (append_message [] 1 2 100 100).1 0 100) ∧
      (100 : Int) - sevenDaysSeconds < 100 := by
  have hmem : ((1, 2), (100 : Int)) ∈
      get_messages_by_time_range (append_message [] 1 2 100 100).1 0 100 := by
    simp [get_messages_by_time_range, append_message, zadd, zremrangebyscoreUpTo,
      sevenDaysSeconds]
  exact ⟨hmem,
    C4_append_leaves_no_stale_records [] 1 2 100 100 0 ((1, 2), 100) hmem⟩

/-- First entry with key `k` after the in-place `ZADD` update map carries the
new score. -/
theorem find?_map_update (s : ZSet) (k : MessageKey) (sc : Int)
    (h : s.any (fun p => p.1 = k) = true) :
    (s.map (fun p => if p.1 = k then (k, sc) else p)).find? (fun p => p.1 = k)
      = some (k, sc) := by
  induction s with
  | nil => simp at h
  | cons a t ih =>
    by_cases hak : a.1 = k
    · rw [List.map_cons, if_pos hak, List.find?_cons_of_pos _ (by simp)]
    · have h' : t.any (fun p => p.1 = k) = true := by
        simp only [List.any_cons, Bool.or_eq_true] at h
        rcases h with h | h
        · exact absurd (of_decide_eq_true h) hak
        · exact h
      rw [List.map_cons, if_neg hak, List.find?_cons_of_neg _ (by simp [hak])]
      exact ih h'

/-- `ZADD` leaves the member's score equal to the newly supplied score,
whether the member was present (score overwrite) or not (fresh insert). -/
theorem zscore_zadd (s : ZSet) (k : MessageKey) (sc : Int) :
    zscore (zadd s k sc).1 k = some sc := by
  unfold zadd zscore
  split
  · rename_i h
    rw [find?_map_update s k sc h]
    rfl
  · rename_i h
    have hnone : s.find? (fun p => p.1 = k) = none := by
      rw [List.find?_eq_none]
      intro x hx hxk
      exact absurd (List.any_eq_true.mpr ⟨x, hx, hxk⟩) h
    rw [List.find?_append, hnone]
    simp

/-- C10: re-appending an already stored `(user_id, message_id)` with a new
timestamp creates no second record — `ZADD` overwrites the member's score
(`redis_client.py` lines 95-107) — and every surviving copy of the member
carries the latest delivery's timestamp. -/
theorem C10_reappend_updates_score_no_new_record (s : ZSet) (uid mid t1 t2 now : Int)
    (h : ((uid, mid), t1) ∈ s) :
    (append_message s uid mid t2 now).1.length ≤ s.length ∧
      (∀ sc, ((uid, mid), sc) ∈ (append_message s uid mid t2 now).1 → sc = t2) ∧
      zscore (zadd s (uid, mid) t2).1 (uid, mid) = some t2 := by
  refine ⟨?_, ?_, zscore_zadd s (uid, mid) t2⟩
  · rw [append_message_fst]
    unfold zremrangebyscoreUpTo
    have h1 := List.length_filter_le
      (fun p => decide (now - sevenDaysSeconds < p.2)) (zadd s (uid, mid) t2).1
    have h2 := zadd_length_of_mem s (uid, mid) t2 ⟨t1, h⟩
    omega
  · intro sc hsc
    rw [append_message_fst] at hsc
    unfold zremrangebyscoreUpTo at hsc
    exact zadd_score_eq s (uid, mid) t2 sc (List.mem_filter.mp hsc).1

/-- Witness for C10 at a concrete input: member `(1, 2)` stored with score 50,
re-appended with timestamp 60 at time 60. -/
theorem C10_reappend_updates_score_no_new_record_witness :
    (((1, 2), (50 : Int)) ∈ ([((1, 2), 50)] : ZSet)) ∧
      (append_message [((1, 2), 50)] 1 2 60 60).1.length ≤
        ([((1, 2), 50)] : ZSet).length ∧
      zscore (zadd [((1, 2), 50)] (1, 2) 60).1 (1, 2) = some 60 :=
  ⟨by decide,
    (C10_reappend_updates_score_no_new_record [((1, 2), 50)] 1 2 50 60 60 (by decide)).1,
    (C10_reappend_updates_score_no_new_record [((1, 2), 50)] 1 2 50 60 60 (by decide)).2.2⟩

theorem probDesc_trans : ∀ a b c : Candidate,
    probDesc a b → probDesc b c → probDesc a c := by
  intro a b c h1 h2
  exact decide_eq_true (le_trans (of_decide_eq_true h2) (of_decide_eq_true h1))

theorem probDesc_total : ∀ a b : Candidate, probDesc a b || probDesc b a := by
  intro a b
  simpa [probDesc, Bool.or_eq_true, decide_eq_true_iff] using
    Int.le_total b.probability a.probability

/-- C2 as stated is refuted at a concrete input: a single high-probability
candidate whose name is not in the command registry produces no action at all
(`bot.py` line 995 guards case 1 with a registry membership test and has no
`else`), instead of "execute that candidate directly". -/
theorem C2_unregistered_single_high_counterexample :
    (high_threshold_commands [⟨"no_such_command", 97, []⟩]).length = 1 ∧
      dispatch defaultCommandNames [⟨"no_such_command", 97, []⟩] =
        DispatchDecision.noAction ∧
      dispatch defaultCommandNames [⟨"no_such_command", 97, []⟩] ≠
        DispatchDecision.executeDirectly ⟨"no_such_command", 97, []⟩ := by
  refine ⟨?_, ?_, ?_⟩ <;>
    simp [dispatch, high_threshold_commands, low_threshold_commands,
      COMMAND_PROBABILITY_HIGH_THRESHOLD, COMMAND_PROBABILITY_LOW_THRESHOLD,
      defaultCommandNames]

/-- C2 amended: the dispatcher partitions candidates by the two thresholds
(with `high ⊆ low`), sorts each subset descending by probability with ties
keeping oracle order (stable sort), and decides by the case analysis of the
claim — except that in the single-high-candidate case the candidate is
executed directly only when its name is non-empty and present in the command
registry; otherwise nothing happens at all. -/
theorem C2_dispatch_thresholds_and_decision (registryNames : List String)
    (cands : List Candidate) :
    (∀ c, c ∈ high_threshold_commands cands → c ∈ low_threshold_commands cands) ∧
      (high_threshold_commands cands).Perm
        (cands.filter (fun c => COMMAND_PROBABILITY_HIGH_THRESHOLD ≤ c.probability)) ∧
      (low_threshold_commands cands).Perm
        (cands.filter (fun c => COMMAND_PROBABILITY_LOW_THRESHOLD ≤ c.probability)) ∧
      (high_threshold_commands cands).Pairwise
        (fun a b => b.probability ≤ a.probability) ∧
      (low_threshold_commands cands).Pairwise
        (fun a b => b.probability ≤ a.probability) ∧
      (∀ a b : Candidate, a.probability = b.probability →
        List.Sublist [a, b]
          (cands.filter (fun c => COMMAND_PROBABILITY_HIGH_THRESHOLD ≤ c.probability)) →
        List.Sublist [a, b] (high_threshold_commands cands)) ∧
      (∀ c, high_threshold_commands cands = [c] → c.name ≠ "" →
        c.name ∈ registryNames →
        dispatch registryNames cands = DispatchDecision.executeDirectly c) ∧
      (∀ c, high_threshold_commands cands = [c] →
        ¬(c.name ≠ "" ∧ c.name ∈ registryNames) →
        dispatch registryNames cands = DispatchDecision.noAction) ∧
      (2 ≤ (high_threshold_commands cands).length →
        dispatch registryNames cands =
          DispatchDecision.chooseAmong (high_threshold_commands cands)) ∧
      ((high_threshold_commands cands).length = 0 →
        1 ≤ (low_threshold_commands cands).length →
        dispatch registryNames cands =
          DispatchDecision.chooseAmong (low_threshold_commands cands)) ∧
      ((low_threshold_commands cands).length = 0 →
        dispatch registryNames cands = DispatchDecision.conversational) := by
  refine ⟨?_, ?_, ?_, ?_, ?_, ?_, ?_, ?_, ?_, ?_, ?_⟩
  · intro c hc
    unfold high_threshold_commands at hc
    rw [List.mem_mergeSort, List.mem_filter] at hc
    unfold low_threshold_commands
    rw [List.mem_mergeSort, List.mem_filter]
    refine ⟨hc.1, decide_eq_true ?_⟩
    have h95 := of_decide_eq_true hc.2
    have : COMMAND_PROBABILITY_LOW_THRESHOLD ≤ COMMAND_PROBABILITY_HIGH_THRESHOLD := by
      decide
    omega
  · exact List.mergeSort_perm _ _
  · exact List.mergeSort_perm _ _
  · exact (List.sorted_mergeSort probDesc_trans probDesc_total _).imp
      (fun h => of_decide_eq_true h)
  · exact (List.sorted_mergeSort probDesc_trans probDesc_total _).imp
      (fun h => of_decide_eq_true h)
  · intro a b hab hsub
    exact List.pair_sublist_mergeSort probDesc_trans probDesc_total
      (decide_eq_true (le_of_eq hab.symm)) hsub
  · intro c hc hname hmem
    simp only [dispatch, hc]
    rw [if_pos ⟨hname, hmem⟩]
  · intro c hc hcond
    simp only [dispatch, hc]
    rw [if_neg hcond]
  · intro h2
    rcases hh : high_threshold_commands cands with _ | ⟨a, _ | ⟨b, t⟩⟩
    · rw [hh] at h2; simp at h2
    · rw [hh] at h2; simp at h2
    · simp only [dispatch, hh]
  · intro h0 h1
    rcases hh : high_threshold_commands cands with _ | ⟨a, t⟩
    · simp only [dispatch, hh]
      rw [if_pos (by omega : (low_threshold_commands cands).length > 0)]
    · rw [hh] at h0; simp at h0
  · intro hlow
    have hl : low_threshold_commands cands = [] := List.eq_nil_of_length_eq_zero hlow
    have hfilter50 :
        cands.filter (fun c => COMMAND_PROBABILITY_LOW_THRESHOLD ≤ c.probability) = [] := by
      have hperm := List.mergeSort_perm
        (cands.filter (fun c => COMMAND_PROBABILITY_LOW_THRESHOLD ≤ c.probability))
        probDesc
      rw [low_threshold_commands] at hl
      rw [hl] at hperm
      exact hperm.symm.eq_nil
    have hfilter95 :
        cands.filter (fun c => COMMAND_PROBABILITY_HIGH_THRESHOLD ≤ c.probability) = [] := by
      rw [List.filter_eq_nil_iff] at hfilter50 ⊢
      intro a ha hpa
      have h95 := of_decide_eq_true hpa
      have hle : COMMAND_PROBABILITY_LOW_THRESHOLD ≤ COMMAND_PROBABILITY_HIGH_THRESHOLD := by
        decide
      exact hfilter50 a ha (decide_eq_true (by omega))
    have hh : high_threshold_commands cands = [] := by
      rw [high_threshold_commands, hfilter95]
      simp
    simp only [dispatch, hh]
    rw [if_neg (by omega : ¬ (low_threshold_commands cands).length > 0)]

/-- Witness for C2's amended theorem at the spec's §8 example
`[{A,97},{B,40}]` (names taken from the real registry): `high` is the
singleton `A`, the decision is "execute `A` directly", and `A` also belongs
to the low set. -/
theorem C2_dispatch_thresholds_and_decision_witness :
    high_threshold_commands [⟨"echo", 97, []⟩, ⟨"get_time", 40, []⟩] =
        [⟨"echo", 97, []⟩] ∧
      (⟨"echo", 97, []⟩ : Candidate).name ≠ "" ∧
      (⟨"echo", 97, []⟩ : Candidate).name ∈ defaultCommandNames ∧
      dispatch defaultCommandNames [⟨"echo", 97, []⟩, ⟨"get_time", 40, []⟩] =
        DispatchDecision.executeDirectly ⟨"echo", 97, []⟩ := by
  have hh : high_threshold_commands [⟨"echo", 97, []⟩, ⟨"get_time", 40, []⟩] =
      [⟨"echo", 97, []⟩] := by
    simp [high_threshold_commands, COMMAND_PROBABILITY_HIGH_THRESHOLD]
  refine ⟨hh, by simp, by simp [defaultCommandNames], ?_⟩
  exact (C2_dispatch_thresholds_and_decision defaultCommandNames
    [⟨"echo", 97, []⟩, ⟨"get_time", 40, []⟩]).2.2.2.2.2.2.1
    ⟨"echo", 97, []⟩ hh (by simp) (by simp [defaultCommandNames])

/-- C8: executing a command name absent from the registry sends a
user-facing "command not found" reply and returns `Event.COMMAND_UNCLEAR`,
the same event as an unclear command.  `execute_command` touches no dialog
state (it has no state argument); the only outcome is the reply and the
returned event. -/
theorem C8_unknown_command_replies_not_found_and_command_unclear
    (commands : List (String × Command)) (command_name : String) (parameters : Params)
    (h : command_name ∉ commands.map Prod.fst) :
    execute_command commands command_name parameters true
      = ([HandlerReply.commandNotFound command_name], Event.COMMAND_UNCLEAR) := by
  have hf : commands.find? (fun p => p.1 = command_name) = none := by
    rw [List.find?_eq_none]
    intro x hx hxc
    exact h (List.mem_map.mpr ⟨x, hx, of_decide_eq_true hxc⟩)
  simp [execute_command, hf]

/-- Witness for C8: an empty registry and the name `"frobnicate"`. -/
theorem C8_unknown_command_replies_not_found_and_command_unclear_witness :
    ("frobnicate" ∉ ([] : List (String × Command)).map Prod.fst) ∧
      execute_command [] "frobnicate" [] true
        = ([HandlerReply.commandNotFound "frobnicate"], Event.COMMAND_UNCLEAR) :=
  ⟨by simp,
    C8_unknown_command_replies_not_found_and_command_unclear [] "frobnicate" [] (by simp)⟩

/-- C9: a registered command whose `execute` body raises has the exception
caught by `execute_command`, which sends a user-facing error reply and
returns `Event.COMMAND_EXECUTED` — the same event as a successful
execution — so nothing propagates to the caller. -/
theorem C9_raising_command_caught_returns_command_executed
    (commands : List (String × Command)) (command_name : String) (parameters : Params)
    (entry : String × Command) (e : String)
    (hfind : commands.find? (fun p => p.1 = command_name) = some entry)
    (hvalid : entry.2.validate_parameters parameters = (true, none))
    (hexec : entry.2.execute parameters = .error e) :
    execute_command commands command_name parameters true
      = ([HandlerReply.executionError e], Event.COMMAND_EXECUTED) := by
  simp [execute_command, validate_command, hfind, hvalid, hexec]

/-- Witness for C9: a registry holding only `boomCommand` under the name
`"boom"`. -/
theorem C9_raising_command_caught_returns_command_executed_witness :
    ([("boom", boomCommand)].find? (fun p => p.1 = "boom") = some ("boom", boomCommand)) ∧
      boomCommand.validate_parameters [] = (true, none) ∧
      boomCommand.execute [] = .error "boom" ∧
      execute_command [("boom", boomCommand)] "boom" [] true
        = ([HandlerReply.executionError "boom"], Event.COMMAND_EXECUTED) :=
  ⟨by simp, rfl, rfl,
    C9_raising_command_caught_returns_command_executed [("boom", boomCommand)] "boom" []
      ("boom", boomCommand) "boom" (by simp) rfl rfl⟩

/-- C5 as stated is refuted: the summarize parameter-clarification loop
(`bot.py` lines 674-733) has no attempt counter — after two consecutive
failed extractions on replies to the bot, the pending command is still
present and the orchestrator merely re-asks, instead of clearing it and
resetting after the second failure. -/
theorem C5_summarize_loop_not_bounded_counterexample :
    (handle_message [] dummyConfirmHandler dummyTopicHandler ⟨[], [], []⟩
        ⟨none, false, none, some ⟨"summarize", 7⟩, none⟩ msgW
        replyEnvW).effects
      = [Effect.replied ReplyTag.summExtractionRetry] ∧
      (handle_message [] dummyConfirmHandler dummyTopicHandler ⟨[], [], []⟩
          (handle_message [] dummyConfirmHandler dummyTopicHandler ⟨[], [], []⟩
            ⟨none, false, none, some ⟨"summarize", 7⟩, none⟩ msgW
            replyEnvW).user_data msgW
          replyEnvW).effects
        = [Effect.replied ReplyTag.summExtractionRetry] ∧
      (handle_message [] dummyConfirmHandler dummyTopicHandler ⟨[], [], []⟩
          (handle_message [] dummyConfirmHandler dummyTopicHandler ⟨[], [], []⟩
            ⟨none, false, none, some ⟨"summarize", 7⟩, none⟩ msgW
            replyEnvW).user_data msgW
          replyEnvW).user_data.pending_summarize_parameters
        = some ⟨"summarize", 7⟩ :=
  ⟨rfl, rfl, rfl⟩

/-- C5 amended: the two-attempt bound holds for the time-window
clarification loop (`pending_time_window`, `bot.py` lines 624-671): with the
stored attempt counter at 1, a failed extraction on a reply to the bot
re-asks and sets the counter to 2; a second failed extraction clears the
pending marker (the dialog returns to its no-pending state) and sends the
failure message.  The summarize-parameters loop carries no such bound. -/
theorem C5_time_window_loop_bounded_two_attempts
    (commands : List (String × Command))
    (confirmHandler : BotState → UserData → Msg → Env → Bool × UserData × List Effect)
    (topicHandler : BotState → UserData → Msg → Env → UserData × List Effect)
    (st : BotState) (ud : UserData) (msg1 msg2 : Msg) (env1 env2 : Env) (cmd : String)
    (hign1 : userIsIgnoredCheck st msg1.from_user = false)
    (hign2 : userIsIgnoredCheck st msg2.from_user = false)
    (hpc : ud.pending_command = none) (hch : ud.pending_choice = false)
    (htw : ud.pending_time_window = some ⟨cmd, 1⟩)
    (hr1 : env1.is_reply_to_bot = true) (hm1 : msg1.is_message = true)
    (hf1 : tw_extracted_hours env1.tw_extraction_pending = none)
    (hr2 : env2.is_reply_to_bot = true) (hm2 : msg2.is_message = true)
    (hf2 : tw_extracted_hours env2.tw_extraction_pending = none) :
    (handle_message commands confirmHandler topicHandler st ud msg1 env1).effects
        = [Effect.replied ReplyTag.twRetryPrompt] ∧
      (handle_message commands confirmHandler topicHandler st ud msg1 env1).user_data
        = { ud with pending_time_window := some ⟨cmd, 2⟩ } ∧
      (handle_message commands confirmHandler topicHandler st
          { ud with pending_time_window := some ⟨cmd, 2⟩ } msg2 env2).effects
        = [Effect.replied ReplyTag.twGiveUpMessage] ∧
      (handle_message commands confirmHandler topicHandler st
          { ud with pending_time_window := some ⟨cmd, 2⟩ } msg2 env2).user_data
        = { ud with pending_time_window := none } := by
  refine ⟨?_, ?_, ?_, ?_⟩ <;>
    simp [handle_message, hign1, hign2, hpc, hch, htw,
      pending_time_window_block, hr1, hm1, hr2, hm2,
      handle_pending_time_window, hf1, hf2]

/-- Witness for C5's amended theorem at concrete inputs: pending
`most_active_user` time window, two failing extractions. -/
theorem C5_time_window_loop_bounded_two_attempts_witness :
    userIsIgnoredCheck ⟨[], [], []⟩ msgW.from_user = false ∧
      tw_extracted_hours (⟨false, none⟩ : TimeWindowResult) = none ∧
      (handle_message [] dummyConfirmHandler dummyTopicHandler ⟨[], [], []⟩
          ⟨none, false, some ⟨"most_active_user", 1⟩, none, none⟩ msgW replyEnvW).effects
        = [Effect.replied ReplyTag.twRetryPrompt] ∧
      (handle_message [] dummyConfirmHandler dummyTopicHandler ⟨[], [], []⟩
          ⟨none, false, some ⟨"most_active_user", 2⟩, none, none⟩ msgW replyEnvW).effects
        = [Effect.replied ReplyTag.twGiveUpMessage] :=
  ⟨rfl, rfl,
    (C5_time_window_loop_bounded_two_attempts [] dummyConfirmHandler dummyTopicHandler
      ⟨[], [], []⟩ ⟨none, false, some ⟨"most_active_user", 1⟩, none, none⟩ msgW msgW
      replyEnvW replyEnvW "most_active_user" rfl rfl rfl rfl rfl rfl rfl rfl rfl rfl rfl).1,
    (C5_time_window_loop_bounded_two_attempts [] dummyConfirmHandler dummyTopicHandler
      ⟨[], [], []⟩ ⟨none, false, some ⟨"most_active_user", 1⟩, none, none⟩ msgW msgW
      replyEnvW replyEnvW "most_active_user" rfl rfl rfl rfl rfl rfl rfl rfl rfl rfl rfl).2.2.1⟩

/-- C6 as stated is refuted at two concrete inputs.  First, for a message
from an ignored sender, `handle_message` performs no append at all — the
ignore-list check at `bot.py` line 562 runs first and drops the message with
no effects, so the idempotency record is not the first check.  Second, for a
message whose `(user_id, message_id)` is already recorded for the chat, the
append's return value is discarded (`bot.py` lines 894-899 call
`add_message` without reading a result) and processing continues into the
dispatch, which still sends a reply — it does not stop. -/
theorem C6_append_not_first_and_duplicates_processed_counterexample :
    (handle_message [] dummyConfirmHandler dummyTopicHandler ⟨[42], [], []⟩ udInit
        msgW mentionEnvW).effects = [] ∧
      (getChat [(7, [((42, 5), 90)])] 7).any (fun p => p.1 = (42, 5)) = true ∧
      (handle_message [] dummyConfirmHandler dummyTopicHandler
          ⟨[], [], [(7, [((42, 5), 90)])]⟩ udInit msgW mentionEnvW).effects
        = [Effect.storedMessage 7 42 5 100,
            Effect.replied ReplyTag.clarificationResponse] := by
  refine ⟨rfl, rfl, ?_⟩
  simp [handle_message, userIsIgnoredCheck, udInit, msgW, mentionEnvW, quietEnv,
    pending_time_window_block, pending_summarize_block, pending_topic_block,
    store_and_dispatch, main_dispatch, high_threshold_commands,
    low_threshold_commands, dummyConfirmHandler]

/-- C6 amended: the orchestrator records the message only after the
ignore-list check, the silence-state read, and the pending-clarification
branches; when no pending flag is set, the chat is not silenced, and the
sender is present and not ignored, the append is the first effect and is
followed by exactly the main dispatch's effects, and the invocation raises
exactly when the dispatch reaches one of the `TypeError` call sites (the
append is not undone by such a raise).  The append's result is ignored: the
effects do not depend on the chat's prior records, so a duplicate
`(user_id, message_id)` never stops processing. -/
theorem C6_append_after_gates_result_ignored
    (commands : List (String × Command))
    (confirmHandler : BotState → UserData → Msg → Env → Bool × UserData × List Effect)
    (topicHandler : BotState → UserData → Msg → Env → UserData × List Effect)
    (st : BotState) (ud : UserData) (msg : Msg) (env : Env) (uid : Int)
    (chats' : List (Int × ZSet))
    (hpc : ud.pending_command = none) (hch : ud.pending_choice = false)
    (htw : ud.pending_time_window = none)
    (hsp : ud.pending_summarize_parameters = none)
    (htp : ud.pending_topic = none)
    (huser : msg.from_user = some uid)
    (hnotign : uid ∉ st.ignored_users)
    (hnotsil : msg.chat_id ∉ st.silenced_chats) :
    (handle_message commands confirmHandler topicHandler st ud msg env).effects
        = Effect.storedMessage msg.chat_id uid msg.message_id (msg.date.getD env.now)
          :: (main_dispatch commands env msg.chat_id ud).effects ∧
      (handle_message commands confirmHandler topicHandler st ud msg env).raised
        = (main_dispatch commands env msg.chat_id ud).raised ∧
      (handle_message commands confirmHandler topicHandler
            { st with chats := chats' } ud msg env).effects
        = (handle_message commands confirmHandler topicHandler st ud msg env).effects := by
  have hmain : ∀ stx : BotState, stx.ignored_users = st.ignored_users →
      stx.silenced_chats = st.silenced_chats →
      (handle_message commands confirmHandler topicHandler stx ud msg env).effects
          = Effect.storedMessage msg.chat_id uid msg.message_id (msg.date.getD env.now)
            :: (main_dispatch commands env msg.chat_id ud).effects ∧
        (handle_message commands confirmHandler topicHandler stx ud msg env).raised
          = (main_dispatch commands env msg.chat_id ud).raised := by
    intro stx hig hsl
    constructor <;>
      simp [handle_message, userIsIgnoredCheck, huser, hig, hsl, hnotign, hpc, hch,
        pending_time_window_block, htw, pending_summarize_block, hsp,
        pending_topic_block, htp, store_and_dispatch, hnotsil]
  exact ⟨(hmain st rfl rfl).1, (hmain st rfl rfl).2,
    ((hmain { st with chats := chats' } rfl rfl).1).trans ((hmain st rfl rfl).1).symm⟩

/-- Witness for C6's amended theorem at concrete inputs: chat 7, sender 42,
no pending flags, nothing silenced or ignored; the stored-message effect
comes first and the effects are unchanged when the chat already holds the
same member. -/
theorem C6_append_after_gates_result_ignored_witness :
    (msgW.from_user = some 42) ∧
      (handle_message [] dummyConfirmHandler dummyTopicHandler ⟨[], [], []⟩ udInit
          msgW mentionEnvW).effects
        = Effect.storedMessage 7 42 5 100
          :: (main_dispatch [] mentionEnvW 7 udInit).effects ∧
      (handle_message [] dummyConfirmHandler dummyTopicHandler
            ⟨[], [], [(7, [((42, 5), 90)])]⟩ udInit msgW mentionEnvW).effects
        = (handle_message [] dummyConfirmHandler dummyTopicHandler ⟨[], [], []⟩ udInit
            msgW mentionEnvW).effects :=
  ⟨rfl,
    (C6_append_after_gates_result_ignored [] dummyConfirmHandler dummyTopicHandler
      ⟨[], [], []⟩ udInit msgW mentionEnvW 42 [(7, [((42, 5), 90)])]
      rfl rfl rfl rfl rfl rfl (by simp) (by simp)).1,
    (C6_append_after_gates_result_ignored [] dummyConfirmHandler dummyTopicHandler
      ⟨[], [], []⟩ udInit msgW mentionEnvW 42 [(7, [((42, 5), 90)])]
      rfl rfl rfl rfl rfl rfl (by simp) (by simp)).2.2⟩

/-- C7 as stated is refuted at two concrete inputs in silenced chat 7,
where `SilenceState` stores no owning user at all (`silence_state.py`
line 13).  First, a message from an arbitrary sender 99 that the oracle's
top-level `"command"` field classifies as `silence` is not dropped: the
silenced branch stores a pending `silence` command and replies a
confirmation prompt (`bot.py` lines 923-939) without checking who silenced
the chat.  Second, the claim's positive branch fails too: an un-silence
keyword utterance — from any sender, the silencing user included, who is
not even representable — reaches the `execute_command` call at line 944,
whose mismatched keywords raise `TypeError`: the handler crashes with no
reply and the chat is never un-silenced. -/
theorem C7_silenced_gate_not_owner_restricted_counterexample :
    (handle_message [] dummyConfirmHandler dummyTopicHandler ⟨[], [7], []⟩ udInit
        ⟨7, some 99, 5, some 100, true⟩ silenceFieldEnvW).effects
      = [Effect.replied ReplyTag.silenceConfirmPrompt] ∧
      (handle_message [] dummyConfirmHandler dummyTopicHandler ⟨[], [7], []⟩ udInit
          ⟨7, some 99, 5, some 100, true⟩ silenceFieldEnvW).user_data.pending_command
        = some ⟨"silence", []⟩ ∧
      (handle_message [] dummyConfirmHandler dummyTopicHandler ⟨[], [7], []⟩ udInit
          ⟨7, some 99, 5, some 100, true⟩ unsilenceEnvW).effects = [] ∧
      (handle_message [] dummyConfirmHandler dummyTopicHandler ⟨[], [7], []⟩ udInit
          ⟨7, some 99, 5, some 100, true⟩ unsilenceEnvW).raised = true :=
  ⟨rfl, rfl, rfl, rfl⟩

/-- C7 amended: in a silenced chat (with no pending flags), a message
produces no effects and no recording unless it is addressed to the bot and
either the oracle's top-level `"command"` field classifies it as the
`silence` command or the un-silence keyword scan hits — from any sender:
the silencing user's identity is not tracked by `SilenceState` nor checked
by the orchestrator.  The oracle-classified path stores a pending `silence`
command and replies a confirmation prompt; the keyword path reaches the
mismatched `execute_command` call at `bot.py` line 944 and raises
`TypeError` with no reply, nothing recorded, and the silence state
untouched — so not even the silencing user can un-silence this way. -/
theorem C7_silenced_chat_gate
    (commands : List (String × Command))
    (confirmHandler : BotState → UserData → Msg → Env → Bool × UserData × List Effect)
    (topicHandler : BotState → UserData → Msg → Env → UserData × List Effect)
    (st : BotState) (ud : UserData) (msg : Msg) (env : Env)
    (hpc : ud.pending_command = none) (hch : ud.pending_choice = false)
    (htw : ud.pending_time_window = none)
    (hsp : ud.pending_summarize_parameters = none)
    (htp : ud.pending_topic = none)
    (hign : userIsIgnoredCheck st msg.from_user = false)
    (hsil : msg.chat_id ∈ st.silenced_chats) :
    ((env.should_process = false ∨ env.user_message = "" ∨
        (env.analysis_command_field ≠ some "silence" ∧
          env.silenced_unsilence_keyword = false)) →
      (handle_message commands confirmHandler topicHandler st ud msg env).effects = [] ∧
        (handle_message commands confirmHandler topicHandler st ud msg env).chats
          = st.chats ∧
        (handle_message commands confirmHandler topicHandler st ud msg env).raised
          = false) ∧
      ((env.should_process = true ∧ env.user_message ≠ "" ∧
          env.analysis_command_field = some "silence") →
        (handle_message commands confirmHandler topicHandler st ud msg env).effects
            = [Effect.replied ReplyTag.silenceConfirmPrompt] ∧
          (handle_message
              commands confirmHandler topicHandler st ud msg env).user_data.pending_command
            = some ⟨"silence", env.analysis_parameters_field⟩ ∧
          (handle_message commands confirmHandler topicHandler st ud msg env).raised
            = false) ∧
      ((env.should_process = true ∧ env.user_message ≠ "" ∧
          env.analysis_command_field ≠ some "silence" ∧
          env.silenced_unsilence_keyword = true) →
        (handle_message commands confirmHandler topicHandler st ud msg env).effects
            = [] ∧
          (handle_message commands confirmHandler topicHandler st ud msg env).chats
            = st.chats ∧
          (handle_message commands confirmHandler topicHandler st ud msg env).raised
            = true) := by
  refine ⟨?_, ?_, ?_⟩
  · intro hdrop
    rcases hdrop with h | h | ⟨h1, h2⟩
    · refine ⟨?_, ?_, ?_⟩ <;>
        (simp [handle_message, hign, hpc, hch, pending_time_window_block, htw,
          pending_summarize_block, hsp, pending_topic_block, htp,
          store_and_dispatch, hsil, h]
         try (rcases msg.from_user with _ | uid <;> rfl))
    · refine ⟨?_, ?_, ?_⟩ <;>
        (simp [handle_message, hign, hpc, hch, pending_time_window_block, htw,
          pending_summarize_block, hsp, pending_topic_block, htp,
          store_and_dispatch, hsil, h]
         try (rcases msg.from_user with _ | uid <;> rfl))
    · refine ⟨?_, ?_, ?_⟩ <;>
        (simp [handle_message, hign, hpc, hch, pending_time_window_block, htw,
          pending_summarize_block, hsp, pending_topic_block, htp,
          store_and_dispatch, hsil, h1, h2]
         try (rcases msg.from_user with _ | uid <;> rfl))
  · rintro ⟨h1, h2, h3⟩
    refine ⟨?_, ?_, ?_⟩ <;>
      (simp [handle_message, hign, hpc, hch, pending_time_window_block, htw,
        pending_summarize_block, hsp, pending_topic_block, htp,
        store_and_dispatch, hsil, h1, h2, h3]
       try (rcases msg.from_user with _ | uid <;> rfl))
  · rintro ⟨h1, h2, h3, h4⟩
    refine ⟨?_, ?_, ?_⟩ <;>
      (simp [handle_message, hign, hpc, hch, pending_time_window_block, htw,
        pending_summarize_block, hsp, pending_topic_block, htp,
        store_and_dispatch, hsil, h1, h2, h3, h4]
       try (rcases msg.from_user with _ | uid <;> rfl))

/-- Witness for C7's amended theorem at concrete inputs: silenced chat 7,
sender 99; once with the oracle classifying the message as the `silence`
command, once with the un-silence keyword hit. -/
theorem C7_silenced_chat_gate_witness :
    ((7 : Int) ∈ ([7] : List Int)) ∧
      silenceFieldEnvW.analysis_command_field = some "silence" ∧
      unsilenceEnvW.silenced_unsilence_keyword = true ∧
      (handle_message [] dummyConfirmHandler dummyTopicHandler ⟨[], [7], []⟩ udInit
          ⟨7, some 99, 5, some 100, true⟩ silenceFieldEnvW).effects
        = [Effect.replied ReplyTag.silenceConfirmPrompt] ∧
      (handle_message [] dummyConfirmHandler dummyTopicHandler ⟨[], [7], []⟩ udInit
          ⟨7, some 99, 5, some 100, true⟩ unsilenceEnvW).raised = true :=
  ⟨by simp, rfl, rfl,
    ((C7_silenced_chat_gate [] dummyConfirmHandler dummyTopicHandler ⟨[], [7], []⟩
      udInit ⟨7, some 99, 5, some 100, true⟩ silenceFieldEnvW rfl rfl rfl rfl rfl rfl
      (by simp)).2.1 ⟨rfl, by decide, rfl⟩).1,
    ((C7_silenced_chat_gate [] dummyConfirmHandler dummyTopicHandler ⟨[], [7], []⟩
      udInit ⟨7, some 99, 5, some 100, true⟩ unsilenceEnvW rfl rfl rfl rfl rfl rfl
      (by simp)).2.2 ⟨rfl, by decide, by decide, rfl⟩).2.2⟩

end SubtableBot
